import Mathlib

/-!
Verification development for the Resilient Backend Invocation Core of
LicenseGuard-MCP (`src/server.py`).

The embedding below translates `server.py` into Lean. Python values that may
or may not be strings are modelled by `PyVal` (the code uses
`assert type(x) == str`). A raised Python exception is modelled by
`Outcome.raised`; a normal return by `Outcome.ok`. The behaviour of the two
HTTP endpoints (the authorization route `/mcp/token` and the analysis route
`/analyze`) is modelled by a `World`: for each attempt index it says what the
corresponding `client.post` call produces. Every outbound `client.post` call
is recorded in a trace (`List NetCall`) so that "zero network activity"
claims are statable.

Notes on fidelity:
- `httpx.ReadTimeout` (and every other timeout) is a subclass of
  `httpx.RequestError`, so in the source both timeouts and connection errors
  hit the same `except httpx.RequestError` branch; `HttpAttempt.requestError`
  carries a `timedOut` flag that the code (faithfully) ignores.
- `MCP_CLIENT_ID` / `MCP_CLIENT_SECRET` are read with `os.getenv` defaults
  (`"mcp-server"` / a generated hex secret), hence never `None`; they are
  modelled as plain strings in `Config`, making the two `assert ... is not
  None` checks in `get_access_token` vacuous, exactly as in the running code.
- the `!r` (repr) formatting of `exc.request.url` is modelled by `reprUrl`.
- a 2xx JSON body of the analysis call is opaque to the core (returned
  verbatim), so `Payload` is its serialized form.
-/

namespace LicenseGuard

/-- `src/server.py` line 12: per-attempt timeout for the POST routes. -/
def POST_ROUTE_TIMEOUT : Nat := 60

/-- `src/server.py` line 13: attempt cap of the retry loops. -/
def MAX_RETRIES : Nat := 3

/-- A Python value handed to the tool: either a `str`, or some non-string
value (its printable form is irrelevant to the control flow). -/
inductive PyVal where
  | str (s : String)
  | nonStr (tag : String)
deriving DecidableEq, Repr

/-- The Python exception kinds the core can raise. -/
inductive PyError where
  | assertionError (msg : String)
  | runtimeError (msg : String)
  | attributeError (msg : String)
deriving DecidableEq, Repr

/-- Result of running a piece of Python code: normal return or raised
exception. -/
inductive Outcome (α : Type) where
  | ok (val : α)
  | raised (e : PyError)
deriving DecidableEq, Repr

/-- Serialized JSON body returned verbatim from the analysis backend. -/
abbrev Payload := String

/-- `src/server.py` lines 26-28: the pydantic `Token` model. -/
structure Token where
  access_token : String
  token_type : String
deriving DecidableEq, Repr

/-- Process-wide configuration (environment, lines 18-23). The client id and
secret have `os.getenv` defaults, so they are always strings. -/
structure Config where
  backendHost : String
  backendPort : String
  clientId : String
  clientSecret : String
deriving DecidableEq, Repr

/-- URL of the authorization route (line 45). -/
def tokenUrl (c : Config) : String :=
  c.backendHost ++ ":" ++ c.backendPort ++ "/mcp/token"

/-- URL of the analysis route (line 104). -/
def analyzeUrl (c : Config) : String :=
  c.backendHost ++ ":" ++ c.backendPort ++ "/analyze"

/-- JSON body of a 2xx response of the authorization route, as consumed by
`json.get("access_token")` / `json.get("token_type")` (line 56): each field
is present or absent. -/
structure AuthBody where
  access_token : Option String
  token_type : Option String
deriving DecidableEq, Repr

/-- What one `client.post` attempt against an endpoint produces:
a 2xx response with a body, a non-2xx response (status plus the optional
`detail` field of its JSON body, consumed at lines 66/124), or an
`httpx.RequestError` (connection failure or timeout — timeouts are
`RequestError` subclasses in httpx). -/
inductive HttpAttempt (β : Type) where
  | ok (body : β)
  | httpStatus (status : Nat) (detail : Option String)
  | requestError (timedOut : Bool)
deriving DecidableEq, Repr

/-- A single apostrophe character, for building the source's literal
messages. -/
def sq : String := String.mk [Char.ofNat 39]

/-- Python `str.lower()`, as used in `token.token_type.lower()` (line 85).
Modelled as a character-wise lower-casing; it agrees with Python on ASCII,
which is the only regime the comparison against the ASCII literal `"bearer"`
exercises. -/
def pyLower (s : String) : String := String.mk (s.data.map Char.toLower)

/-- Python `repr` of an `httpx.URL`. -/
def reprUrl (url : String) : String := "URL(" ++ sq ++ url ++ sq ++ ")"

/-- Message of the `RuntimeError` raised from the `except httpx.RequestError`
branches (lines 60-61 and 118-119). -/
def requestErrorMsg (url : String) : String :=
  "An error occurred while requesting " ++ reprUrl url ++ "."

/-- Fallback detail used at lines 66 and 124. -/
def unknownDetail : String := "An unknown error occurred."

/-- Message of the `RuntimeError` raised from the `except
httpx.HTTPStatusError` branches (lines 65-66 and 123-124). -/
def statusMsg (attempt status : Nat) (detail : Option String) : String :=
  "(Attempt " ++ toString (attempt + 1) ++ ") Received " ++ toString status
    ++ ": " ++ detail.getD unknownDetail

/-- Line 75 assertion message. -/
def projectTypeMsg : String := "The project name must be of type string."

/-- Line 77 `RuntimeError` message. -/
def projectLenMsg : String := "Project name must be between 1 and 100 characters."

/-- Lines 80-81 assertion message. -/
def requirementsTypeMsg : String :=
  "The " ++ sq ++ "requirements.txt" ++ sq ++ " file must be of type string."

/-- Line 85 assertion message. -/
def bearerTypeMsg : String :=
  "The token must be of the " ++ sq ++ "bearer" ++ sq ++ " type."

/-- Line 87 `RuntimeError` message. -/
def jwtFailedMsg : String := "The JWT failed to be obtained from the backend server."

/-- The multipart request assembled at lines 89-97 and 103-109: one file part
(`file`), one form field (`project_name`), and the bearer header. -/
structure AnalyzeRequest where
  url : String
  authHeader : String
  fileName : String
  fileBytes : List UInt8
  fileContentType : String
  formProjectName : String
deriving DecidableEq, Repr

/-- One recorded outbound `client.post` call. -/
inductive NetCall where
  | tokenCall (url clientId clientSecret : String)
  | analyzeCall (req : AnalyzeRequest)
deriving DecidableEq, Repr

/-- Behaviour of the two endpoints: what the `client.post` of attempt `i`
would produce on each route. -/
structure World where
  authBehavior : Nat → HttpAttempt AuthBody
  analysisBehavior : Nat → HttpAttempt Payload

/-- The `for attempt in range(MAX_RETRIES)` loop of `get_access_token`
(lines 36-66). Every arm of the `try/except` either returns or raises, so
the body runs at most once; the fuel argument mirrors the remaining range.
Falling off the loop would make the function return `None` (modelled by
`Outcome.ok none`). Each iteration first performs the POST (recorded), then
branches on what it produced. -/
def getAccessTokenLoop (c : Config) (behavior : Nat → HttpAttempt AuthBody) :
    Nat → Nat → Outcome (Option Token) × List NetCall
  | _, 0 => (.ok none, [])
  | attempt, _fuel + 1 =>
    let call := NetCall.tokenCall (tokenUrl c) c.clientId c.clientSecret
    match behavior attempt with
    | .ok body =>
        (.ok (some { access_token := body.access_token.getD ""
                     token_type := body.token_type.getD "bearer" }), [call])
    | .httpStatus s d =>
        (.raised (.runtimeError (statusMsg attempt s d)), [call])
    | .requestError _ =>
        (.raised (.runtimeError (requestErrorMsg (tokenUrl c))), [call])

/-- `src/server.py` lines 30-66: `get_access_token`. -/
def get_access_token (c : Config) (w : World) :
    Outcome (Option Token) × List NetCall :=
  getAccessTokenLoop c w.authBehavior 0 MAX_RETRIES

/-- Lines 89-97 and 103-109: the request content sent to `/analyze`. -/
def analyzeRequestOf (c : Config) (project_name requirements_content access_token : String) :
    AnalyzeRequest :=
  { url := analyzeUrl c
    authHeader := "Bearer " ++ access_token
    fileName := project_name ++ "_requirements.txt"
    fileBytes := requirements_content.toUTF8.data.toList
    fileContentType := "text/plain"
    formProjectName := project_name }

/-- The `for attempt in range(MAX_RETRIES)` loop of `analyze_dependencies`
(lines 100-124); same shape as `getAccessTokenLoop`: every arm returns or
raises, so the body runs at most once. -/
def analysisLoop (c : Config) (behavior : Nat → HttpAttempt Payload)
    (req : AnalyzeRequest) :
    Nat → Nat → Outcome (Option Payload) × List NetCall
  | _, 0 => (.ok none, [])
  | attempt, _fuel + 1 =>
    match behavior attempt with
    | .ok body => (.ok (some body), [.analyzeCall req])
    | .httpStatus s d =>
        (.raised (.runtimeError (statusMsg attempt s d)), [.analyzeCall req])
    | .requestError _ =>
        (.raised (.runtimeError (requestErrorMsg (analyzeUrl c))), [.analyzeCall req])

/-- `src/server.py` lines 69-124: the `analyze_dependencies` tool. Returns
the outcome together with the trace of outbound POST calls made. -/
def analyze_dependencies (c : Config) (project_name requirements_content : PyVal)
    (w : World) : Outcome (Option Payload) × List NetCall :=
  match project_name with
  | .nonStr _ => (.raised (.assertionError projectTypeMsg), [])
  | .str pn =>
    if pn.length < 1 || pn.length > 100 then
      (.raised (.runtimeError projectLenMsg), [])
    else
      match requirements_content with
      | .nonStr _ => (.raised (.assertionError requirementsTypeMsg), [])
      | .str rc =>
        match get_access_token c w with
        | (.raised e, tr) => (.raised e, tr)
        | (.ok none, tr) =>
            -- unreachable: the loop always exits during its first iteration;
            -- in Python, `None.token_type` would raise AttributeError
            (.raised (.attributeError ("NoneType object has no attribute token_type")), tr)
        | (.ok (some token), tr) =>
          if pyLower token.token_type = "bearer" then
            if token.access_token = "" then
              (.raised (.runtimeError jwtFailedMsg), tr)
            else
              let step := analysisLoop c w.analysisBehavior
                (analyzeRequestOf c pn rc token.access_token) 0 MAX_RETRIES
              (step.1, tr ++ step.2)
          else
            (.raised (.assertionError bearerTypeMsg), tr)

/-- Number of POST calls made against the analysis endpoint in a trace. -/
def countAnalyzeCalls : List NetCall → Nat
  | [] => 0
  | .analyzeCall _ :: rest => countAnalyzeCalls rest + 1
  | .tokenCall _ _ _ :: rest => countAnalyzeCalls rest

/-- The timeout message the specification's ResultMapper table prescribes
(`Failure("The analysis timed out. Please try again.")`); stated here for
comparison with what the code actually produces. -/
def specTimeoutMsg : String := "The analysis timed out. Please try again."

/-! ### Concrete environments used for witnesses and counterexamples -/

/-- The configuration the repository's test suite uses
(`BACKEND_URL_HOST=http://localhost`, `BACKEND_URL_PORT=5000`). -/
def cDemo : Config :=
  { backendHost := "http://localhost", backendPort := "5000"
    clientId := "mcp-server", clientSecret := "s3cret" }

/-- A well-behaved authorization response. -/
def authOkBody : AuthBody :=
  { access_token := some "tok-123", token_type := some "bearer" }

/-- Both endpoints succeed on every attempt. -/
def wOk : World :=
  { authBehavior := fun _ => .ok authOkBody
    analysisBehavior := fun _ => .ok "payload" }

/-- The authorization route returns HTTP 200 but with an empty
`access_token`. -/
def wEmptyTok : World :=
  { authBehavior := fun _ => .ok { access_token := some "", token_type := some "bearer" }
    analysisBehavior := fun _ => .ok "payload" }

/-- The authorization route returns HTTP 200 with a body lacking both
`access_token` and `token_type`. -/
def wNoFields : World :=
  { authBehavior := fun _ => .ok { access_token := none, token_type := none }
    analysisBehavior := fun _ => .ok "payload" }

/-- The analysis route responds 500 with the detail used by the repository's
`test_500_error_returns_error_result_not_exception`. -/
def w500 : World :=
  { authBehavior := fun _ => .ok authOkBody
    analysisBehavior := fun _ => .httpStatus 500 (some "Internal server error occurred") }

/-- The analysis route responds 401 with the detail used by the repository's
`test_401_unauthorized_returns_clear_message`. -/
def w401 : World :=
  { authBehavior := fun _ => .ok authOkBody
    analysisBehavior := fun _ => .httpStatus 401 (some "Invalid or expired token") }

/-- The analysis route responds 403 with the detail used by the repository's
`test_403_forbidden_returns_error_result`. -/
def w403 : World :=
  { authBehavior := fun _ => .ok authOkBody
    analysisBehavior := fun _ => .httpStatus 403 (some "Access forbidden") }

/-- Every analysis attempt times out (`httpx.ReadTimeout`). -/
def wTimeout : World :=
  { authBehavior := fun _ => .ok authOkBody
    analysisBehavior := fun _ => .requestError true }

/-- Every analysis attempt fails with a connection error
(`httpx.ConnectError`). -/
def wConnFail : World :=
  { authBehavior := fun _ => .ok authOkBody
    analysisBehavior := fun _ => .requestError false }

/-! ### Reduction helpers for the two retry loops -/

theorem get_access_token_of_ok (c : Config) (w : World) (body : AuthBody)
    (hauth : w.authBehavior 0 = .ok body) :
    get_access_token c w =
      (.ok (some { access_token := body.access_token.getD ""
                   token_type := body.token_type.getD "bearer" }),
       [NetCall.tokenCall (tokenUrl c) c.clientId c.clientSecret]) := by
  show getAccessTokenLoop c w.authBehavior 0 MAX_RETRIES = _
  rw [show MAX_RETRIES = 2 + 1 from rfl]
  simp [getAccessTokenLoop, hauth]

theorem analysisLoop_of_ok (c : Config) (behavior : Nat → HttpAttempt Payload)
    (req : AnalyzeRequest) (body : Payload) (h : behavior 0 = .ok body) :
    analysisLoop c behavior req 0 MAX_RETRIES = (.ok (some body), [.analyzeCall req]) := by
  rw [show MAX_RETRIES = 2 + 1 from rfl]
  simp [analysisLoop, h]

theorem analysisLoop_of_status (c : Config) (behavior : Nat → HttpAttempt Payload)
    (req : AnalyzeRequest) (s : Nat) (d : Option String)
    (h : behavior 0 = .httpStatus s d) :
    analysisLoop c behavior req 0 MAX_RETRIES =
      (.raised (.runtimeError (statusMsg 0 s d)), [.analyzeCall req]) := by
  rw [show MAX_RETRIES = 2 + 1 from rfl]
  simp [analysisLoop, h]

theorem analysisLoop_of_requestError (c : Config) (behavior : Nat → HttpAttempt Payload)
    (req : AnalyzeRequest) (b : Bool) (h : behavior 0 = .requestError b) :
    analysisLoop c behavior req 0 MAX_RETRIES =
      (.raised (.runtimeError (requestErrorMsg (analyzeUrl c))), [.analyzeCall req]) := by
  rw [show MAX_RETRIES = 2 + 1 from rfl]
  simp [analysisLoop, h]

/-- When validation passes and the authorization route yields a usable bearer
token, `analyze_dependencies` reaches the analysis retry loop with exactly
the request built at lines 89-97. -/
theorem analyze_dependencies_sending (c : Config) (pn rc : String) (w : World)
    (body : AuthBody) (h1 : 1 ≤ pn.length) (h2 : pn.length ≤ 100)
    (hb : pyLower (body.token_type.getD "bearer") = "bearer")
    (ha : body.access_token.getD "" ≠ "")
    (hauth : w.authBehavior 0 = .ok body) :
    analyze_dependencies c (.str pn) (.str rc) w =
      ((analysisLoop c w.analysisBehavior
          (analyzeRequestOf c pn rc (body.access_token.getD "")) 0 MAX_RETRIES).1,
       NetCall.tokenCall (tokenUrl c) c.clientId c.clientSecret ::
         (analysisLoop c w.analysisBehavior
           (analyzeRequestOf c pn rc (body.access_token.getD "")) 0 MAX_RETRIES).2) := by
  have hcond : (pn.length < 1 || pn.length > 100) = false := by
    simp only [Bool.or_eq_false_iff, decide_eq_false_iff_not, Nat.not_lt, Nat.not_lt]
    omega
  simp only [analyze_dependencies]
  rw [if_neg (by simp only [Bool.or_eq_true, decide_eq_true_eq, not_or, Nat.not_lt]; omega)]
  simp only [get_access_token_of_ok c w body hauth]
  simp [hb, ha]

/-- When validation passes but the acquired token is not of the bearer type,
the line 85 assertion fires after the single authorization call. -/
theorem analyze_dependencies_badBearer (c : Config) (pn rc : String) (w : World)
    (body : AuthBody) (h1 : 1 ≤ pn.length) (h2 : pn.length ≤ 100)
    (hb : pyLower (body.token_type.getD "bearer") ≠ "bearer")
    (hauth : w.authBehavior 0 = .ok body) :
    analyze_dependencies c (.str pn) (.str rc) w =
      (.raised (.assertionError bearerTypeMsg),
       [NetCall.tokenCall (tokenUrl c) c.clientId c.clientSecret]) := by
  simp only [analyze_dependencies]
  rw [if_neg (by simp only [Bool.or_eq_true, decide_eq_true_eq, not_or, Nat.not_lt]; omega)]
  simp only [get_access_token_of_ok c w body hauth]
  simp [hb]

/-- When validation passes, the token is of the bearer type, but the
`access_token` is empty, the line 87 `RuntimeError` fires after the single
authorization call. -/
theorem analyze_dependencies_emptyTok (c : Config) (pn rc : String) (w : World)
    (body : AuthBody) (h1 : 1 ≤ pn.length) (h2 : pn.length ≤ 100)
    (hb : pyLower (body.token_type.getD "bearer") = "bearer")
    (ha : body.access_token.getD "" = "")
    (hauth : w.authBehavior 0 = .ok body) :
    analyze_dependencies c (.str pn) (.str rc) w =
      (.raised (.runtimeError jwtFailedMsg),
       [NetCall.tokenCall (tokenUrl c) c.clientId c.clientSecret]) := by
  simp only [analyze_dependencies]
  rw [if_neg (by simp only [Bool.or_eq_true, decide_eq_true_eq, not_or, Nat.not_lt]; omega)]
  simp only [get_access_token_of_ok c w body hauth]
  simp [hb, ha]

theorem get_access_token_of_status (c : Config) (w : World) (st : Nat)
    (d : Option String) (hauth : w.authBehavior 0 = .httpStatus st d) :
    get_access_token c w =
      (.raised (.runtimeError (statusMsg 0 st d)),
       [NetCall.tokenCall (tokenUrl c) c.clientId c.clientSecret]) := by
  show getAccessTokenLoop c w.authBehavior 0 MAX_RETRIES = _
  rw [show MAX_RETRIES = 2 + 1 from rfl]
  simp [getAccessTokenLoop, hauth]

theorem get_access_token_of_requestError (c : Config) (w : World) (b : Bool)
    (hauth : w.authBehavior 0 = .requestError b) :
    get_access_token c w =
      (.raised (.runtimeError (requestErrorMsg (tokenUrl c))),
       [NetCall.tokenCall (tokenUrl c) c.clientId c.clientSecret]) := by
  show getAccessTokenLoop c w.authBehavior 0 MAX_RETRIES = _
  rw [show MAX_RETRIES = 2 + 1 from rfl]
  simp [getAccessTokenLoop, hauth]

/-- The analysis retry loop always performs exactly one POST: every arm of
the `try/except` returns or raises during the first iteration. -/
theorem analysisLoop_trace (c : Config) (b : Nat → HttpAttempt Payload)
    (req : AnalyzeRequest) :
    (analysisLoop c b req 0 MAX_RETRIES).2 = [.analyzeCall req] := by
  rw [show MAX_RETRIES = 2 + 1 from rfl]
  cases h : b 0 <;> simp [analysisLoop, h]

/-- The message raised from the `except httpx.RequestError` branch is never
the timeout message the specification prescribes (the former starts with
"An", the latter with "The"). -/
theorem requestErrorMsg_ne_specTimeoutMsg (url : String) :
    requestErrorMsg url ≠ specTimeoutMsg := by
  intro h
  have h2 : (requestErrorMsg url).data.head? = specTimeoutMsg.data.head? := by
    rw [h]
  rw [show requestErrorMsg url =
      "An error occurred while requesting " ++ (reprUrl url ++ ".") from by
    simp [requestErrorMsg, String.append_assoc]] at h2
  rw [String.data_append] at h2
  have h3 : (some (Char.ofNat 65) : Option Char) = specTimeoutMsg.data.head? := h2
  exact absurd h3 (by decide)

/-- The generic status-branch message for a 401 is never the distinguished
authorization-failure message the specification prescribes. -/
theorem statusMsg_401_ne_authFailed (d : String) :
    statusMsg 0 401 (some d) ≠ "Authorization failed: " ++ d := by
  intro h
  have h2 : (statusMsg 0 401 (some d)).data.head? =
      ("Authorization failed: " ++ d).data.head? := by rw [h]
  rw [show statusMsg 0 401 (some d) = "(Attempt 1) Received 401: " ++ d from rfl,
    String.data_append, String.data_append] at h2
  have h3 : (some (Char.ofNat 40) : Option Char) = some (Char.ofNat 65) := h2
  exact absurd h3 (by decide)

/-! ### Claim theorems -/

/-- C5: for every `project_name` of length 0 or greater than 100,
`analyze_dependencies` raises the hard `RuntimeError` with the exact message
"Project name must be between 1 and 100 characters." — a raised error, not a
soft `Failure` value — and the trace of outbound calls is empty: neither the
authorization endpoint nor the analysis endpoint is contacted. -/
theorem C5_length_validation_precedes_network (c : Config) (pn : String)
    (rc : PyVal) (w : World) (h : pn.length = 0 ∨ pn.length > 100) :
    analyze_dependencies c (.str pn) rc w =
      (.raised (.runtimeError projectLenMsg), []) := by
  have hcond : (pn.length < 1 || pn.length > 100) = true := by
    rcases h with h | h
    · simp [h]
    · simp [h]
  simp only [analyze_dependencies]
  rw [if_pos hcond]

/-- Witness for C5: the empty project name, with both endpoints perfectly
healthy, yields the raised validation error and an empty network trace. -/
theorem C5_witness :
    ("".length = 0 ∨ "".length > 100) ∧
    analyze_dependencies cDemo (.str "") (.str "pkg==1.0.0") wOk =
      (.raised (.runtimeError projectLenMsg), []) :=
  ⟨Or.inl rfl,
   C5_length_validation_precedes_network cDemo "" (.str "pkg==1.0.0") wOk (Or.inl rfl)⟩

/-- C10: a non-string `project_name` raises an `AssertionError` (a different
error kind than the `RuntimeError` used for length violations), a non-string
`requirements_content` likewise raises an `AssertionError`, and the
pre-flight checks run in a fixed order — `project_name` type, then
`project_name` length, then `requirements_content` type — all before
credential acquisition: in each case the network trace is empty. The order
is visible in the conclusions: a non-string `project_name` wins over a
non-string `requirements_content`, and a length violation wins over a
non-string `requirements_content`. -/
theorem C10_preflight_order (c : Config) (w : World) :
    (∀ t rc, analyze_dependencies c (.nonStr t) rc w =
        (.raised (.assertionError projectTypeMsg), [])) ∧
    (∀ pn t, pn.length = 0 ∨ pn.length > 100 →
        analyze_dependencies c (.str pn) (.nonStr t) w =
          (.raised (.runtimeError projectLenMsg), [])) ∧
    (∀ pn t, 1 ≤ pn.length → pn.length ≤ 100 →
        analyze_dependencies c (.str pn) (.nonStr t) w =
          (.raised (.assertionError requirementsTypeMsg), [])) := by
  refine ⟨fun t rc => rfl, fun pn t h => ?_, fun pn t h1 h2 => ?_⟩
  · have hcond : (pn.length < 1 || pn.length > 100) = true := by
      rcases h with h | h
      · simp [h]
      · simp [h]
    simp only [analyze_dependencies]
    rw [if_pos hcond]
  · have hcond : (pn.length < 1 || pn.length > 100) = false := by
      simp only [Bool.or_eq_false_iff, decide_eq_false_iff_not, Nat.not_lt]
      omega
    simp only [analyze_dependencies]
    rw [if_neg (by simp only [Bool.or_eq_true, decide_eq_true_eq, not_or, Nat.not_lt]; omega)]

/-- Witness for C10: concrete non-string inputs (an `int`, as in the
repository's own test) hit each pre-flight check in order, with zero
outbound calls. -/
theorem C10_witness :
    analyze_dependencies cDemo (.nonStr "int") (.str "x") wOk =
      (.raised (.assertionError projectTypeMsg), []) ∧
    analyze_dependencies cDemo (.str "") (.nonStr "int") wOk =
      (.raised (.runtimeError projectLenMsg), []) ∧
    analyze_dependencies cDemo (.str "demo") (.nonStr "int") wOk =
      (.raised (.assertionError requirementsTypeMsg), []) :=
  ⟨(C10_preflight_order cDemo wOk).1 "int" (.str "x"),
   (C10_preflight_order cDemo wOk).2.1 "" "int" (Or.inl rfl),
   (C10_preflight_order cDemo wOk).2.2 "demo" "int" (by decide) (by decide)⟩

/-- C7: with a credential acquired from the authorization endpoint, the
invocation proceeds to the analysis call only if the token type
case-insensitively equals "bearer" and the access token is non-empty; and an
empty `access_token` is a fatal (raised) acquisition failure even when the
authorization endpoint returned HTTP 200 (`HttpAttempt.ok`). -/
theorem C7_bearer_gate (c : Config) (pn rc : String) (w : World) (body : AuthBody)
    (h1 : 1 ≤ pn.length) (h2 : pn.length ≤ 100)
    (hauth : w.authBehavior 0 = .ok body) :
    (body.access_token.getD "" = "" →
      pyLower (body.token_type.getD "bearer") = "bearer" →
      analyze_dependencies c (.str pn) (.str rc) w =
        (.raised (.runtimeError jwtFailedMsg),
         [NetCall.tokenCall (tokenUrl c) c.clientId c.clientSecret])) ∧
    (∀ req, NetCall.analyzeCall req ∈ (analyze_dependencies c (.str pn) (.str rc) w).2 →
      pyLower (body.token_type.getD "bearer") = "bearer" ∧
        body.access_token.getD "" ≠ "") := by
  by_cases hb : pyLower (body.token_type.getD "bearer") = "bearer"
  · by_cases ha : body.access_token.getD "" = ""
    · have hred := analyze_dependencies_emptyTok c pn rc w body h1 h2 hb ha hauth
      refine ⟨fun _ _ => hred, fun req hm => ?_⟩
      rw [hred] at hm
      simp at hm
    · refine ⟨fun ha2 _ => absurd ha2 ha, fun req hm => ⟨hb, ha⟩⟩
  · have hred := analyze_dependencies_badBearer c pn rc w body h1 h2 hb hauth
    refine ⟨fun _ hb2 => absurd hb2 hb, fun req hm => ?_⟩
    rw [hred] at hm
    simp at hm

/-- Witness for C7: the authorization route answers HTTP 200 with
`access_token=""` and `token_type="bearer"`; the call aborts with the fatal
JWT `RuntimeError` right after the single authorization call. -/
theorem C7_witness :
    analyze_dependencies cDemo (.str "demo") (.str "pkg==1.0.0") wEmptyTok =
      (.raised (.runtimeError jwtFailedMsg),
       [NetCall.tokenCall (tokenUrl cDemo) cDemo.clientId cDemo.clientSecret]) :=
  (C7_bearer_gate cDemo "demo" "pkg==1.0.0" wEmptyTok
      { access_token := some "", token_type := some "bearer" }
      (by decide) (by decide) rfl).1 rfl rfl

/-- C9: when the 2xx authorization response body lacks a `token_type` field,
`get_access_token` defaults it to "bearer" and the subsequent bearer-type
check passes; a missing `access_token` field defaults to the empty string,
which is then rejected as the fatal acquisition `RuntimeError` of line 87
rather than a parse error. -/
theorem C9_missing_fields_default (c : Config) (pn rc : String) (w : World)
    (h1 : 1 ≤ pn.length) (h2 : pn.length ≤ 100)
    (hauth : w.authBehavior 0 = .ok { access_token := none, token_type := none }) :
    get_access_token c w =
      (.ok (some { access_token := "", token_type := "bearer" }),
       [NetCall.tokenCall (tokenUrl c) c.clientId c.clientSecret]) ∧
    analyze_dependencies c (.str pn) (.str rc) w =
      (.raised (.runtimeError jwtFailedMsg),
       [NetCall.tokenCall (tokenUrl c) c.clientId c.clientSecret]) :=
  ⟨get_access_token_of_ok c w _ hauth,
   analyze_dependencies_emptyTok c pn rc w
     { access_token := none, token_type := none } h1 h2 rfl rfl hauth⟩

/-- Witness for C9: with a 200 authorization response whose body has neither
field, the acquired token is `⟨"", "bearer"⟩` and the call fails with the
fatal JWT `RuntimeError` (the bearer check having passed). -/
theorem C9_witness :
    get_access_token cDemo wNoFields =
      (.ok (some { access_token := "", token_type := "bearer" }),
       [NetCall.tokenCall (tokenUrl cDemo) cDemo.clientId cDemo.clientSecret]) ∧
    analyze_dependencies cDemo (.str "demo") (.str "pkg==1.0.0") wNoFields =
      (.raised (.runtimeError jwtFailedMsg),
       [NetCall.tokenCall (tokenUrl cDemo) cDemo.clientId cDemo.clientSecret]) :=
  C9_missing_fields_default cDemo "demo" "pkg==1.0.0" wNoFields
    (by decide) (by decide) rfl

/-- C8: for all strings passed as `project_name` (valid length) and
`requirements_content`, the core transmits the manifest byte-for-byte as the
UTF-8 encoding in the file part, the project name unmodified as the form
field (and in the derived filename), the bearer header from the token, and
on a 2xx analysis response returns the backend payload verbatim. -/
theorem C8_roundtrip (c : Config) (pn rc tokStr : String) (p : Payload) (w : World)
    (h1 : 1 ≤ pn.length) (h2 : pn.length ≤ 100) (htok : tokStr ≠ "")
    (hauth : w.authBehavior 0 = .ok { access_token := some tokStr, token_type := some "bearer" })
    (hana : w.analysisBehavior 0 = .ok p) :
    analyze_dependencies c (.str pn) (.str rc) w =
      (.ok (some p),
       [NetCall.tokenCall (tokenUrl c) c.clientId c.clientSecret,
        NetCall.analyzeCall
          { url := analyzeUrl c
            authHeader := "Bearer " ++ tokStr
            fileName := pn ++ "_requirements.txt"
            fileBytes := rc.toUTF8.data.toList
            fileContentType := "text/plain"
            formProjectName := pn }]) := by
  have hs := analyze_dependencies_sending c pn rc w
    { access_token := some tokStr, token_type := some "bearer" }
    h1 h2 rfl (by simpa using htok) hauth
  rw [hs, analysisLoop_of_ok c w.analysisBehavior _ p hana]
  simp [analyzeRequestOf]

/-- Witness for C8: non-ASCII project name and manifest (emoji, umlauts)
round-trip: the file part carries exactly the UTF-8 bytes of the manifest,
the form field carries the project name unchanged, and the simulated 2xx
payload comes back verbatim. -/
theorem C8_witness :
    analyze_dependencies cDemo (.str "test-🛡-project") (.str "münchen-package==1.0.0") wOk =
      (.ok (some "payload"),
       [NetCall.tokenCall (tokenUrl cDemo) cDemo.clientId cDemo.clientSecret,
        NetCall.analyzeCall
          { url := analyzeUrl cDemo
            authHeader := "Bearer " ++ "tok-123"
            fileName := "test-🛡-project" ++ "_requirements.txt"
            fileBytes := ("münchen-package==1.0.0" : String).toUTF8.data.toList
            fileContentType := "text/plain"
            formProjectName := "test-🛡-project" }]) :=
  C8_roundtrip cDemo "test-🛡-project" "münchen-package==1.0.0" "tok-123" "payload" wOk
    (by decide) (by decide) (by decide) rfl rfl

/-- C1 (claim refuted by the code; this theorem evaluates the code on the
failure modes): with validated input and a good bearer token, EVERY non-2xx
response and every transport failure (connection error or timeout) of the
analysis call makes `analyze_dependencies` raise a `RuntimeError`, aborting
the caller, instead of returning a machine-readable error value — the code
has no soft `Failure` shape at all, contradicting the claim that no failure
surfaces as a raised exception. -/
theorem C1_analysis_failures_raise (c : Config) (pn rc tokStr : String) (w : World)
    (h1 : 1 ≤ pn.length) (h2 : pn.length ≤ 100) (htok : tokStr ≠ "")
    (hauth : w.authBehavior 0 = .ok { access_token := some tokStr, token_type := some "bearer" }) :
    (∀ st d, w.analysisBehavior 0 = .httpStatus st d →
        (analyze_dependencies c (.str pn) (.str rc) w).1 =
          .raised (.runtimeError (statusMsg 0 st d))) ∧
    (∀ b, w.analysisBehavior 0 = .requestError b →
        (analyze_dependencies c (.str pn) (.str rc) w).1 =
          .raised (.runtimeError (requestErrorMsg (analyzeUrl c)))) := by
  have hs := analyze_dependencies_sending c pn rc w
    { access_token := some tokStr, token_type := some "bearer" }
    h1 h2 rfl (by simpa using htok) hauth
  constructor
  · intro st d hana
    rw [hs, analysisLoop_of_status c w.analysisBehavior _ st d hana]
  · intro b hana
    rw [hs, analysisLoop_of_requestError c w.analysisBehavior _ b hana]

/-- Witness for C1: a simulated 500 response with detail "Internal server
error occurred" (the repository's own `test_500_error...` scenario) makes the
call raise instead of returning an error value. -/
theorem C1_witness :
    (analyze_dependencies cDemo (.str "test-project") (.str "requests==2.28.0") w500).1 =
      .raised (.runtimeError (statusMsg 0 500 (some "Internal server error occurred"))) :=
  (C1_analysis_failures_raise cDemo "test-project" "requests==2.28.0" "tok-123" w500
      (by decide) (by decide) (by decide) rfl).1 500 (some "Internal server error occurred") rfl

/-- C2 (claim refuted by the code): a timeout of the analysis attempt
(`httpx.ReadTimeout`, a `RequestError` subclass) is caught by the generic
`except httpx.RequestError` branch and re-raised as
`RuntimeError("An error occurred while requesting <url>.")` — a raised
exception whose message is not the claimed soft
`Failure("The analysis timed out. Please try again.")`. -/
theorem C2_timeout_raises_generic (c : Config) (pn rc tokStr : String) (w : World)
    (h1 : 1 ≤ pn.length) (h2 : pn.length ≤ 100) (htok : tokStr ≠ "")
    (hauth : w.authBehavior 0 = .ok { access_token := some tokStr, token_type := some "bearer" })
    (hana : w.analysisBehavior 0 = .requestError true) :
    (analyze_dependencies c (.str pn) (.str rc) w).1 =
      .raised (.runtimeError (requestErrorMsg (analyzeUrl c))) ∧
    requestErrorMsg (analyzeUrl c) ≠ specTimeoutMsg := by
  have hs := analyze_dependencies_sending c pn rc w
    { access_token := some tokStr, token_type := some "bearer" }
    h1 h2 rfl (by simpa using htok) hauth
  refine ⟨?_, requestErrorMsg_ne_specTimeoutMsg (analyzeUrl c)⟩
  rw [hs, analysisLoop_of_requestError c w.analysisBehavior _ true hana]

/-- Witness for C2: the repository's `test_timeout...` scenario (every
attempt raises `httpx.ReadTimeout`): the call raises the generic
`RuntimeError`, whose message differs from the claimed timeout message. -/
theorem C2_witness :
    (analyze_dependencies cDemo (.str "timeout-test") (.str "requests==2.28.0") wTimeout).1 =
      .raised (.runtimeError (requestErrorMsg (analyzeUrl cDemo))) ∧
    requestErrorMsg (analyzeUrl cDemo) ≠ specTimeoutMsg :=
  C2_timeout_raises_generic cDemo "timeout-test" "requests==2.28.0" "tok-123" wTimeout
    (by decide) (by decide) (by decide) rfl rfl

/-- C4 (claim refuted by the code): a 401 response of the analysis call goes
through the same generic `except httpx.HTTPStatusError` branch as every
other status: the call raises
`RuntimeError("(Attempt 1) Received 401: <detail>")` — no distinguished
authorization classification, and the message is never the claimed
"Authorization failed: <detail>". -/
theorem C4_401_not_distinguished (c : Config) (pn rc tokStr d : String) (w : World)
    (h1 : 1 ≤ pn.length) (h2 : pn.length ≤ 100) (htok : tokStr ≠ "")
    (hauth : w.authBehavior 0 = .ok { access_token := some tokStr, token_type := some "bearer" })
    (hana : w.analysisBehavior 0 = .httpStatus 401 (some d)) :
    (analyze_dependencies c (.str pn) (.str rc) w).1 =
      .raised (.runtimeError ("(Attempt 1) Received 401: " ++ d)) ∧
    ("(Attempt 1) Received 401: " ++ d) ≠ ("Authorization failed: " ++ d) := by
  have hs := analyze_dependencies_sending c pn rc w
    { access_token := some tokStr, token_type := some "bearer" }
    h1 h2 rfl (by simpa using htok) hauth
  constructor
  · rw [hs, analysisLoop_of_status c w.analysisBehavior _ 401 (some d) hana]
    rfl
  · intro h
    exact statusMsg_401_ne_authFailed d
      ((show statusMsg 0 401 (some d) = "(Attempt 1) Received 401: " ++ d from rfl).trans h)

/-- Witness for C4: the repository's `test_401...` scenario (401 with detail
"Invalid or expired token"): the call raises the generic attempt-numbered
status message, not a distinguished authorization-failure value. -/
theorem C4_witness :
    (analyze_dependencies cDemo (.str "test-project") (.str "requests==2.28.0") w401).1 =
      .raised (.runtimeError ("(Attempt 1) Received 401: " ++ "Invalid or expired token")) ∧
    ("(Attempt 1) Received 401: " ++ "Invalid or expired token") ≠
      ("Authorization failed: " ++ "Invalid or expired token") :=
  C4_401_not_distinguished cDemo "test-project" "requests==2.28.0" "tok-123"
    "Invalid or expired token" w401 (by decide) (by decide) (by decide) rfl rfl

/-- When credential acquisition raises, `analyze_dependencies` propagates the
exception after the single authorization call. -/
theorem analyze_dependencies_authFail (c : Config) (pn rc : String) (w : World)
    (e : PyError) (h1 : 1 ≤ pn.length) (h2 : pn.length ≤ 100)
    (hget : get_access_token c w =
      (.raised e, [NetCall.tokenCall (tokenUrl c) c.clientId c.clientSecret])) :
    analyze_dependencies c (.str pn) (.str rc) w =
      (.raised e, [NetCall.tokenCall (tokenUrl c) c.clientId c.clientSecret]) := by
  simp only [analyze_dependencies]
  rw [if_neg (by simp only [Bool.or_eq_true, decide_eq_true_eq, not_or, Nat.not_lt]; omega)]
  simp only [hget]

/-- Every possible trace of outbound calls: nothing, the single
authorization POST, or the authorization POST followed by a single analysis
POST. In particular no route is ever POSTed twice in one invocation. -/
theorem analyze_trace_cases (c : Config) (pn rc : PyVal) (w : World) :
    (analyze_dependencies c pn rc w).2 = [] ∨
    (analyze_dependencies c pn rc w).2 =
      [NetCall.tokenCall (tokenUrl c) c.clientId c.clientSecret] ∨
    ∃ req, (analyze_dependencies c pn rc w).2 =
      [NetCall.tokenCall (tokenUrl c) c.clientId c.clientSecret,
       NetCall.analyzeCall req] := by
  cases pn with
  | nonStr t => exact Or.inl rfl
  | str pns =>
    by_cases hcond : (pns.length < 1 || pns.length > 100) = true
    · left
      simp only [analyze_dependencies]
      rw [if_pos hcond]
    · have hlen : 1 ≤ pns.length ∧ pns.length ≤ 100 := by
        simp only [Bool.or_eq_true, decide_eq_true_eq, not_or, Nat.not_lt] at hcond
        omega
      cases rc with
      | nonStr t =>
        left
        simp only [analyze_dependencies]
        rw [if_neg hcond]
      | str rcs =>
        cases hb : w.authBehavior 0 with
        | ok body =>
          by_cases hbl : pyLower (body.token_type.getD "bearer") = "bearer"
          · by_cases ha : body.access_token.getD "" = ""
            · right; left
              rw [analyze_dependencies_emptyTok c pns rcs w body hlen.1 hlen.2 hbl ha hb]
            · refine Or.inr (Or.inr
                ⟨analyzeRequestOf c pns rcs (body.access_token.getD ""), ?_⟩)
              rw [analyze_dependencies_sending c pns rcs w body hlen.1 hlen.2 hbl ha hb]
              simp [analysisLoop_trace]
          · right; left
            rw [analyze_dependencies_badBearer c pns rcs w body hlen.1 hlen.2 hbl hb]
        | httpStatus st d =>
          right; left
          rw [analyze_dependencies_authFail c pns rcs w _ hlen.1 hlen.2
            (get_access_token_of_status c w st d hb)]
        | requestError b =>
          right; left
          rw [analyze_dependencies_authFail c pns rcs w _ hlen.1 hlen.2
            (get_access_token_of_requestError c w b hb)]

/-- C3 (amended): in the analysis-call retry loop (cap 3), the first non-2xx
response terminates the loop immediately and is classified (raised) without
retry — and transient connection failures (network errors, timeouts) are
likewise NOT retried: every invocation performs at most one analysis POST,
whatever the endpoints do. -/
theorem C3_first_failure_terminates (c : Config) (pn rc : PyVal) (w : World) :
    countAnalyzeCalls (analyze_dependencies c pn rc w).2 ≤ 1 ∧
    (∀ pns rcs tokStr st d, pn = .str pns → rc = .str rcs →
      1 ≤ pns.length → pns.length ≤ 100 → tokStr ≠ "" →
      w.authBehavior 0 = .ok { access_token := some tokStr, token_type := some "bearer" } →
      w.analysisBehavior 0 = .httpStatus st d →
      analyze_dependencies c pn rc w =
        (.raised (.runtimeError (statusMsg 0 st d)),
         [NetCall.tokenCall (tokenUrl c) c.clientId c.clientSecret,
          NetCall.analyzeCall (analyzeRequestOf c pns rcs tokStr)])) := by
  constructor
  · rcases analyze_trace_cases c pn rc w with h | h | ⟨req, h⟩ <;>
      rw [h] <;> simp [countAnalyzeCalls]
  · rintro pns rcs tokStr st d rfl rfl h1 h2 htok hauth hana
    rw [analyze_dependencies_sending c pns rcs w
      { access_token := some tokStr, token_type := some "bearer" }
      h1 h2 rfl (by simpa using htok) hauth,
      analysisLoop_of_status c w.analysisBehavior _ st d hana]
    rfl

/-- Witness for C3 (amended): in the repository's 403 scenario the loop
terminates on the first response with the raised classification and exactly
one analysis POST. -/
theorem C3_witness :
    analyze_dependencies cDemo (.str "test-project") (.str "requests==2.28.0") w403 =
      (.raised (.runtimeError (statusMsg 0 403 (some "Access forbidden"))),
       [NetCall.tokenCall (tokenUrl cDemo) cDemo.clientId cDemo.clientSecret,
        NetCall.analyzeCall
          (analyzeRequestOf cDemo "test-project" "requests==2.28.0" "tok-123")]) :=
  (C3_first_failure_terminates cDemo (.str "test-project") (.str "requests==2.28.0") w403).2
    "test-project" "requests==2.28.0" "tok-123" 403 (some "Access forbidden")
    rfl rfl (by decide) (by decide) (by decide) rfl rfl

/-- Counterexample for C3 as stated: the claim says transient connection
failures are retried up to the attempt cap (3), but with every analysis
attempt failing as a connection error the invocation performs exactly ONE
analysis POST (not 3) and aborts with the raised generic `RuntimeError`: the
`except httpx.RequestError` branch re-raises immediately, so nothing is ever
retried. -/
theorem C3_counterexample :
    countAnalyzeCalls
      (analyze_dependencies cDemo (.str "demo") (.str "pkg==1.0.0") wConnFail).2 = 1 ∧
    MAX_RETRIES = 3 ∧
    (analyze_dependencies cDemo (.str "demo") (.str "pkg==1.0.0") wConnFail).1 =
      .raised (.runtimeError (requestErrorMsg (analyzeUrl cDemo))) := by
  refine ⟨?_, rfl, ?_⟩ <;> rfl

/-- C6 (claim refuted by the code): the tool's inputs are exactly
`project_name` and `requirements_content` — there is no credential
parameter — and credential acquisition from the authorization endpoint is
unconditional: whenever an invocation makes any outbound call at all, the
FIRST call is always the POST to the authorization route; no mode exists in
which a caller-supplied token is used for the bearer header with the
authorization endpoint left uncontacted. -/
theorem C6_auth_always_contacted (c : Config) (pn rc : PyVal) (w : World) :
    ∀ call calls, (analyze_dependencies c pn rc w).2 = call :: calls →
      call = NetCall.tokenCall (tokenUrl c) c.clientId c.clientSecret := by
  intro call calls h
  rcases analyze_trace_cases c pn rc w with h2 | h2 | ⟨req, h2⟩ <;> rw [h2] at h
  · exact absurd h (by simp)
  · simp only [List.cons.injEq] at h
    exact h.1.symm
  · simp only [List.cons.injEq] at h
    exact h.1.symm

/-- Witness for C6: a fully successful invocation makes two outbound calls,
and the first one is the authorization POST — even though nothing about the
inputs asked for credential acquisition. -/
theorem C6_witness :
    ((analyze_dependencies cDemo (.str "demo") (.str "pkg==1.0.0") wOk).2 =
      NetCall.tokenCall (tokenUrl cDemo) cDemo.clientId cDemo.clientSecret ::
        [NetCall.analyzeCall (analyzeRequestOf cDemo "demo" "pkg==1.0.0" "tok-123")]) ∧
    NetCall.tokenCall (tokenUrl cDemo) cDemo.clientId cDemo.clientSecret =
      NetCall.tokenCall (tokenUrl cDemo) cDemo.clientId cDemo.clientSecret :=
  ⟨rfl, C6_auth_always_contacted cDemo (.str "demo") (.str "pkg==1.0.0") wOk _ _ rfl⟩

end LicenseGuard
